import Mathlib

/-
Verification of the blog-agent pipeline (src/main.py) against its
natural-language specification.

The program is a straight-line orchestration of external services
(LLM text completion, image generation, blob storage, git hosting).
Every external call is modelled as an oracle value or oracle function
passed to the embedded function: a value of type Except String A is
the outcome of the call (error message, or returned payload).  Pure
Python string operations are re-implemented on List Char so that all
definitions are executable and kernel-reducible.
-/

set_option autoImplicit false
set_option linter.unusedVariables false

namespace BlogAgent

/-! ## Python string primitives -/

/-- Python str.strip: drop leading and trailing whitespace. -/
def pyStrip (s : String) : String :=
  String.mk (((s.data.dropWhile Char.isWhitespace).reverse.dropWhile Char.isWhitespace).reverse)

/-- Python str.startswith. -/
def pyStartsWith (s pre : String) : Bool :=
  pre.data.isPrefixOf s.data

/-- Python str.isdigit (restricted to ASCII digits): nonempty and all digits. -/
def pyIsDigit (s : String) : Bool :=
  !s.data.isEmpty && s.data.all (fun c => c.isDigit)

/-- Python str.lower. -/
def pyLower (s : String) : String :=
  String.mk (s.data.map Char.toLower)

/-- Python str.replace with a single-character pattern and replacement. -/
def pyReplaceChar (s : String) (a b : Char) : String :=
  String.mk (s.data.map (fun c => if c == a then b else c))

/-- Decimal digits of a natural number, most significant first.
The fuel argument dominates the number of divisions by 10. -/
def natCharsAux : Nat → Nat → List Char
  | 0, _ => []
  | Nat.succ f, n =>
    if n < 10 then [Char.ofNat (48 + n)]
    else natCharsAux f (n / 10) ++ [Char.ofNat (48 + n % 10)]

/-- Decimal digit characters of a natural number. -/
def natChars (n : Nat) : List Char :=
  natCharsAux (n + 1) n

/-- Python str applied to a nonnegative integer. -/
def pyStrNat (n : Nat) : String :=
  String.mk (natChars n)

/-- Python str.index(sub, start) on the tail list, relative index. -/
def findSubAux (sub : List Char) : List Char → Nat → Option Nat
  | [], i => if sub.isEmpty then some i else none
  | c :: rest, i =>
    if sub.isPrefixOf (c :: rest) then some i else findSubAux sub rest (i + 1)

/-- Python str.index(sub, start): first index at or after start where sub
occurs, or none (Python raises ValueError there). -/
def strIndexFrom (s sub : String) (start : Nat) : Option Nat :=
  (findSubAux sub.data (s.data.drop start) 0).map (fun i => i + start)

/-- Python slice s[a:b]. -/
def strSlice (s : String) (a b : Nat) : String :=
  String.mk ((s.data.drop a).take (b - a))

/-! ## Error model

Python exception values relevant to the program: ValueError and
FileNotFoundError escape unwrapped from validation code, RuntimeError is
the generic stage-failure rewrap used by every except-block. -/

inductive PyError where
  | valueError (msg : String)
  | runtimeError (msg : String)
  | fileNotFound (msg : String)
  deriving Repr, DecidableEq

/-- Python str(e) on an exception: the carried message. -/
def PyError.toMsg : PyError → String
  | .valueError m => m
  | .runtimeError m => m
  | .fileNotFound m => m

/-! ## Text-generation stages (src/main.py)

Each stage takes the outcome of its model call as an oracle value.
research_topic additionally reports, as the second component, whether the
model call was issued at all (it is not when input validation fails). -/

/-- research_topic (src/main.py lines 29-62).  Validates the topic and the
year before the model call; an empty stripped response is a stage failure. -/
def research_topic (topic current_year : String) (call : Except String String) :
    Except PyError String × Bool :=
  if topic = "" ∨ pyStrip topic = "" then
    (.error (.valueError "Topic cannot be empty"), false)
  else if pyIsDigit current_year = false then
    (.error (.valueError "Current year must be a number"), false)
  else
    match call with
    | .error e => (.error (.runtimeError ("Research failed: " ++ e)), true)
    | .ok resp =>
      let content := pyStrip resp
      if content = "" then
        (.error (.runtimeError "Research failed: Empty OpenAI response"), true)
      else (.ok content, true)

/-- generate_image_prompt (src/main.py lines 65-87). -/
def generate_image_prompt (topic title research_output : String)
    (call : Except String String) : Except PyError String :=
  match call with
  | .error e => .error (.runtimeError ("Image prompt generation failed: " ++ e))
  | .ok resp =>
    let content := pyStrip resp
    if content = "" then
      .error (.runtimeError "Image prompt generation failed: Empty image prompt response")
    else .ok content

/-- The hardcoded fallback URL of the image stage (src/main.py line 122). -/
def placeholder_url : String := "https://example.com/placeholder.jpg"

/-- The blob key built at src/main.py line 111. -/
def blob_filename (title : String) (now : Nat) : String :=
  "images/" ++ pyReplaceChar (pyLower title) ' ' '-' ++ "-" ++ pyStrNat now ++ ".png"

/-- generate_and_upload_image (src/main.py lines 90-124).  The oracles are
the image-generation call, the HTTP download (by URL) and the blob upload
(by key and payload).  Any failure in the chain yields the placeholder. -/
def generate_and_upload_image (image_prompt title : String)
    (genResult : Except String String)
    (download : String → Except String String)
    (upload : String → String → Except String String)
    (now : Nat) : String :=
  match genResult with
  | .error _ => placeholder_url
  | .ok image_url =>
    match download image_url with
    | .error _ => placeholder_url
    | .ok image_data =>
      match upload (blob_filename title now) image_data with
      | .error _ => placeholder_url
      | .ok blob_url => blob_url

/-- write_blog_post (src/main.py lines 127-163). -/
def write_blog_post (topic research_output author_name_arg author_picture_arg
    cover_image_url current_date_iso : String)
    (call : Except String String) : Except PyError String :=
  match call with
  | .error e => .error (.runtimeError ("Blog post failed: " ++ e))
  | .ok resp =>
    let content := pyStrip resp
    if content = "" then
      .error (.runtimeError "Blog post failed: Empty OpenAI response")
    else .ok content

/-- The fixed category list of src/main.py lines 252-255. -/
def categories : List String :=
  ["AI", "Web3", "Blockchain Fusion", "Startups", "Tech Culture",
   "Tools & Reviews", "How-Tos", "Editorials", "AGI"]

/-- select_category_and_title (src/main.py lines 251-278).  random.choice is
modelled by an index into the fixed list. -/
def select_category_and_title (randIdx : Nat) (call : Except String String) :
    Except PyError (String × String) :=
  let selected_category := categories.getD (randIdx % categories.length) ""
  match call with
  | .error e => .error (.runtimeError ("Title generation failed: " ++ e))
  | .ok resp =>
    let title := pyStrip resp
    if title = "" then
      .error (.runtimeError "Title generation failed: Empty title response")
    else .ok (selected_category, title)

/-! ## Publisher (git_push_callback, src/main.py lines 166-248)

The YAML loader, the git-hosting API and the JSON decoder are external
collaborators, modelled as oracles.  The calls the function issues to the
git API are recorded as a list of GitAction values; the serialized JSON of
the index commit is carried in structured form (the entry list). -/

/-- A YAML scalar or one-level nested mapping, as read back by the
publisher from the frontmatter. -/
inductive YVal where
  | s (v : String)
  | m (kvs : List (String × String))
  deriving Repr, DecidableEq

/-- The frontmatter mapping returned by yaml.safe_load. -/
abbrev Metadata := List (String × YVal)

/-- Python metadata.get(key, dflt) for a string-valued key. -/
def ygetStr (md : Metadata) (key dflt : String) : String :=
  match md.lookup key with
  | some (YVal.s v) => v
  | _ => dflt

/-- Python metadata.get("author", \x7b\x7d).get(field, "") for the nested
author mapping. -/
def ygetAuthor (md : Metadata) (field : String) : String :=
  match md.lookup "author" with
  | some (YVal.m kvs) => (kvs.lookup field).getD ""
  | _ => ""

/-- One entry of the metadata index (the dict literal new_entry at
src/main.py lines 209-226). -/
structure Entry where
  category : String
  collection : String
  coverImage : String
  description : String
  publishedAt : String
  slug : String
  status : String
  title : String
  path : String
  authorName : String
  authorPicture : String
  outstaticPath : String
  deriving Repr, DecidableEq

/-- new_entry (src/main.py lines 209-226), derived from the parsed
frontmatter and the slug. -/
def new_entry (metadata : Metadata) (slug : String) : Entry :=
  ⟨ygetStr metadata "category" "Uncategorized",
   "blogs",
   ygetStr metadata "coverImage" "",
   ygetStr metadata "description" "",
   ygetStr metadata "publishedAt" "",
   slug,
   ygetStr metadata "status" "draft",
   ygetStr metadata "title" "Untitled",
   "outstatic/content/blogs/" ++ slug ++ ".md",
   ygetAuthor metadata "name",
   ygetAuthor metadata "picture",
   "outstatic/content/blogs/" ++ slug ++ ".md"⟩

/-- The remote metadata.json handle returned by repo.get_contents: its
decoded text content and its revision sha. -/
structure FetchedFile where
  content : String
  sha : String
  deriving Repr, DecidableEq

/-- Calls issued to the git-hosting API. -/
inductive GitAction where
  | createFile (path msg content : String)
  | getContents (path : String)
  | updateFile (path msg : String) (index : List Entry) (sha : String)
  | createIndexFile (path msg : String) (index : List Entry)
  deriving Repr, DecidableEq

/-- Frontmatter parsing step of git_push_callback (src/main.py lines
184-188): content not starting with the delimiter yields the empty
mapping; a missing closing delimiter is an unwrapped ValueError from
str.index. -/
def parse_frontmatter (content : String) (yamlParse : String → Option Metadata) :
    Except PyError Metadata :=
  if pyStartsWith content "---" then
    match strIndexFrom content "---" 3 with
    | none => .error (.valueError "substring not found")
    | some frontmatter_end =>
      let frontmatter := pyStrip (strSlice content 3 frontmatter_end)
      .ok ((yamlParse frontmatter).getD [])
  else .ok []

/-- The in-memory index before the append (src/main.py lines 202-207):
empty unless both the fetch and the JSON decode succeed. -/
def baseIndexOf (fetchResult : Except String FetchedFile)
    (jsonParse : String → Option (List Entry)) : List Entry :=
  match fetchResult with
  | .error _ => []
  | .ok f => (jsonParse f.content).getD []

/-- Whether the variable metadata_file is bound (src/main.py line 230:
the in-locals test), and with which sha. -/
def fetchedSha (fetchResult : Except String FetchedFile) : Option String :=
  match fetchResult with
  | .error _ => none
  | .ok f => some f.sha

/-- The index commit issued at src/main.py lines 229-242: update in place
when the fetch handle exists, create otherwise. -/
def metaAction (fetchResult : Except String FetchedFile)
    (jsonParse : String → Option (List Entry)) (entry : Entry) : GitAction :=
  match fetchedSha fetchResult with
  | some sha =>
    .updateFile "outstatic/content/metadata.json" "Update metadata"
      (baseIndexOf fetchResult jsonParse ++ [entry]) sha
  | none =>
    .createIndexFile "outstatic/content/metadata.json" "Create metadata"
      (baseIndexOf fetchResult jsonParse ++ [entry])

/-- git_push_callback after the frontmatter parse (src/main.py lines
189-248): derive the slug, commit the post file, fetch and append the
metadata index, commit it. -/
def pushRest (content : String) (metadata : Metadata)
    (createPostResult : Except String Unit)
    (fetchResult : Except String FetchedFile)
    (jsonParse : String → Option (List Entry))
    (metaCommitResult : Except String Unit) :
    Except PyError String × List GitAction :=
  let slug := ygetStr metadata "slug" "default-slug"
  let new_filename := slug ++ ".md"
  let a1 := GitAction.createFile ("outstatic/content/blogs/" ++ new_filename)
    ("Add " ++ new_filename) content
  match createPostResult with
  | .error e => (.error (.runtimeError ("Push failed: " ++ e)), [a1])
  | .ok _ =>
    let a2 := GitAction.getContents "outstatic/content/metadata.json"
    let a3 := metaAction fetchResult jsonParse (new_entry metadata slug)
    match metaCommitResult with
    | .error e =>
      (.error (.runtimeError ("Metadata update failed: " ++ e)), [a1, a2, a3])
    | .ok _ => (.ok "Successfully pushed blog post", [a1, a2, a3])

/-- git_push_callback (src/main.py lines 166-248).  hasToken is whether
GIT_TOKEN is set, reportExists whether /tmp/report.md exists; the file
content is stripped on read (line 182). -/
def git_push_callback (hasToken reportExists : Bool) (rawContent : String)
    (yamlParse : String → Option Metadata)
    (createPostResult : Except String Unit)
    (fetchResult : Except String FetchedFile)
    (jsonParse : String → Option (List Entry))
    (metaCommitResult : Except String Unit) :
    Except PyError String × List GitAction :=
  if hasToken = false then (.error (.valueError "GIT_TOKEN not set"), [])
  else if reportExists = false then (.error (.fileNotFound "Report file missing"), [])
  else
    let content := pyStrip rawContent
    match parse_frontmatter content yamlParse with
    | .error e => (.error e, [])
    | .ok metadata =>
      pushRest content metadata createPostResult fetchResult jsonParse metaCommitResult

/-! ## Orchestrator and HTTP surface (src/main.py lines 281-337) -/

/-- All oracle outcomes of one run: the model calls of the four text
stages, the image chain, the yaml/json decoders, the git API calls and
the clock values. -/
structure Oracles where
  randIdx : Nat
  titleResp : Except String String
  researchResp : Except String String
  imagePromptResp : Except String String
  imageGen : Except String String
  download : String → Except String String
  upload : String → String → Except String String
  postResp : Except String String
  yamlParse : String → Option Metadata
  createPost : Except String Unit
  fetchMeta : Except String FetchedFile
  jsonParse : String → Option (List Entry)
  metaCommit : Except String Unit
  hasGitToken : Bool
  year : Nat
  nowIso : String
  epoch : Nat
  elapsed : Nat

/-- The author name constant of src/main.py line 310. -/
def author_name : String := "Abdullah Sajid"

/-- The author picture constant of src/main.py line 311. -/
def author_picture_url : String := "https://avatars.githubusercontent.com/u/176460407?v=4"

/-- The dict returned by run_agent on success (src/main.py line 334). -/
structure RunResult where
  result : String
  execution_time : Nat
  deriving Repr, DecidableEq

/-- run_agent (src/main.py lines 295-337): the sequential pipeline; any
escaping exception becomes HTTPException(500, str(e)), modelled as the
error pair (500, message). -/
def run_agent (o : Oracles) : Except (Nat × String) RunResult :=
  match select_category_and_title o.randIdx o.titleResp with
  | .error e => .error (500, e.toMsg)
  | .ok ct =>
    let title := ct.2
    let current_datetime_iso := o.nowIso ++ "Z"
    let topic := pyStrip title
    let current_year := pyStrNat o.year
    match (research_topic topic current_year o.researchResp).1 with
    | .error e => .error (500, e.toMsg)
    | .ok research_output =>
      match generate_image_prompt topic title research_output o.imagePromptResp with
      | .error e => .error (500, e.toMsg)
      | .ok image_prompt =>
        let cover_image_url :=
          generate_and_upload_image image_prompt title o.imageGen o.download o.upload o.epoch
        match write_blog_post topic research_output author_name
            author_picture_url cover_image_url current_datetime_iso o.postResp with
        | .error e => .error (500, e.toMsg)
        | .ok blog_content =>
          match (git_push_callback o.hasGitToken true blog_content o.yamlParse
              o.createPost o.fetchMeta o.jsonParse o.metaCommit).1 with
          | .error e => .error (500, e.toMsg)
          | .ok result => .ok ⟨result, o.elapsed⟩

/-- The JSON body of an HTTP response of this service. -/
inductive RespBody where
  | message (s : String)
  | runResult (result : String) (execution_time : Nat)
  | detail (s : String)
  deriving Repr, DecidableEq

/-- An HTTP response: status code and JSON body. -/
structure HttpResponse where
  status : Nat
  body : RespBody
  deriving Repr, DecidableEq

/-- trigger_event (src/main.py lines 286-289), the GET /run-agent route:
runs the pipeline, discards its return value, and answers with a static
message; an escaping HTTPException becomes a response with its status
and detail. -/
def trigger_event (o : Oracles) : HttpResponse :=
  match run_agent o with
  | .ok _ => ⟨200, .message "Agent is running in the background"⟩
  | .error (code, msg) => ⟨code, .detail msg⟩

/-! ## General lemmas about the string primitives -/

/-- Stripping from both ends is idempotent, at the level of char lists. -/
theorem strip_chars_idem (p : Char → Bool) (l : List Char) :
    ((((((l.dropWhile p).reverse.dropWhile p).reverse).dropWhile p).reverse.dropWhile p).reverse)
      = ((l.dropWhile p).reverse.dropWhile p).reverse := by
  have e1 : ∀ y : List Char, (y.reverse.dropWhile p).reverse = y.rdropWhile p := fun y => rfl
  simp only [e1]
  have hm2 : List.dropWhile p (l.dropWhile p) = l.dropWhile p :=
    List.dropWhile_idempotent p l
  have hdw : List.dropWhile p ((l.dropWhile p).rdropWhile p) = (l.dropWhile p).rdropWhile p := by
    obtain ⟨t, ht⟩ := List.rdropWhile_prefix p (l.dropWhile p)
    cases hk : (l.dropWhile p).rdropWhile p with
    | nil => simp
    | cons c k =>
      rw [hk] at ht
      have hc : p c = false := by
        by_contra hpc
        rw [Bool.not_eq_false] at hpc
        rw [← ht] at hm2
        simp only [List.cons_append] at hm2
        rw [List.dropWhile_cons, if_pos hpc] at hm2
        have hlen := congrArg List.length hm2
        have hle : (List.dropWhile p (k ++ t)).length ≤ (k ++ t).length :=
          (List.dropWhile_suffix p).sublist.length_le
        simp [List.length_append] at hlen hle
        omega
      rw [List.dropWhile_cons, hc]
      simp
  rw [hdw, List.rdropWhile_idempotent]

/-- pyStrip is idempotent, like Python str.strip. -/
theorem pyStrip_idem (s : String) : pyStrip (pyStrip s) = pyStrip s := by
  cases s with
  | mk data => exact congrArg String.mk (strip_chars_idem Char.isWhitespace data)

/-- pyStrip of the empty string. -/
theorem pyStrip_empty : pyStrip "" = "" := rfl

/-- A digit character built from a value below ten. -/
theorem charOfNat_digit (k : Nat) (hk : k < 10) : (Char.ofNat (48 + k)).isDigit = true := by
  interval_cases k <;> decide

/-- Every character produced by natCharsAux is a decimal digit. -/
theorem natCharsAux_digit :
    ∀ (fuel n : Nat), ∀ c ∈ natCharsAux fuel n, c.isDigit = true := by
  intro fuel
  induction fuel with
  | zero => intro n c hc; simp [natCharsAux] at hc
  | succ f ih =>
    intro n c hc
    by_cases h : n < 10
    · simp [natCharsAux, h] at hc
      subst hc
      exact charOfNat_digit n h
    · simp [natCharsAux, h] at hc
      rcases hc with hc | hc
      · exact ih _ c hc
      · subst hc
        exact charOfNat_digit _ (Nat.mod_lt _ (by omega))

/-- natCharsAux with positive fuel is never empty. -/
theorem natCharsAux_ne_nil (f n : Nat) : natCharsAux (f + 1) n ≠ [] := by
  by_cases h : n < 10 <;> simp [natCharsAux, h]

/-- The decimal rendering of a natural number passes the isdigit check. -/
theorem pyIsDigit_pyStrNat (n : Nat) : pyIsDigit (pyStrNat n) = true := by
  have h1 := natCharsAux_ne_nil n n
  have h2 := natCharsAux_digit (n + 1) n
  simp [pyIsDigit, pyStrNat, natChars]
  constructor
  · simpa [List.isEmpty_iff] using h1
  · intro c hc
    exact h2 c hc

/-- A string with a non-digit character fails the isdigit check. -/
theorem pyIsDigit_false_of_mem (s : String) (c : Char) (hc : c ∈ s.data)
    (hd : c.isDigit = false) : pyIsDigit s = false := by
  cases hall : s.data.all (fun x => x.isDigit) with
  | false => simp [pyIsDigit, hall]
  | true =>
    exfalso
    rw [List.all_eq_true] at hall
    have := hall c hc
    simp [hd] at this

/-! ## Claim theorems -/

/-- C2: for every image prompt and title, generate_and_upload_image returns a
URL string and never lets an exception escape: it is a total function whose
result is either the URL of the uploaded blob (all three steps having
succeeded) or exactly the literal placeholder URL when any step of
generation, download, or upload fails. -/
theorem image_producer_always_returns_url (image_prompt title : String)
    (genResult : Except String String) (download : String → Except String String)
    (upload : String → String → Except String String) (now : Nat) :
    generate_and_upload_image image_prompt title genResult download upload now =
      "https://example.com/placeholder.jpg" ∨
    (∃ u b r, genResult = .ok u ∧ download u = .ok b ∧
      upload (blob_filename title now) b = .ok r ∧
      generate_and_upload_image image_prompt title genResult download upload now = r) := by
  cases genResult with
  | error e => left; rfl
  | ok u =>
    cases hd : download u with
    | error e => left; simp [generate_and_upload_image, placeholder_url, hd]
    | ok b =>
      cases hu : upload (blob_filename title now) b with
      | error e => left; simp [generate_and_upload_image, placeholder_url, hd, hu]
      | ok r =>
        right
        exact ⟨u, b, r, rfl, hd, hu, by simp [generate_and_upload_image, hd, hu]⟩

/-- C3: for every topic that is empty or whitespace-only, and for every year
containing a non-digit character, research_topic fails with a ValueError
(input validation, distinct from the RuntimeError used for external-call
failures) and the second component is false: the model call is not issued,
whatever its outcome oracle would have been. -/
theorem research_topic_input_validation (topic current_year : String)
    (call : Except String String) :
    (pyStrip topic = "" →
      research_topic topic current_year call =
        (.error (.valueError "Topic cannot be empty"), false)) ∧
    (pyStrip topic ≠ "" → (∃ c ∈ current_year.data, c.isDigit = false) →
      research_topic topic current_year call =
        (.error (.valueError "Current year must be a number"), false)) := by
  constructor
  · intro h
    simp [research_topic, h]
  · intro h hex
    have hne : ¬(topic = "" ∨ pyStrip topic = "") := by
      rintro (rfl | hh)
      · exact h pyStrip_empty
      · exact h hh
    obtain ⟨c, hc, hd⟩ := hex
    have hdig : pyIsDigit current_year = false := pyIsDigit_false_of_mem _ c hc hd
    simp [research_topic, hne, hdig]

/-- C3 witness: a whitespace-only topic and a year with a non-digit
character each fail with the input-validation ValueError and without the
model call being issued. -/
theorem research_topic_input_validation_witness :
    research_topic "   " "2026" (.ok "text") =
      (.error (.valueError "Topic cannot be empty"), false) ∧
    research_topic "AI" "20a6" (.ok "text") =
      (.error (.valueError "Current year must be a number"), false) :=
  ⟨(research_topic_input_validation "   " "2026" (.ok "text")).1 (by decide),
   (research_topic_input_validation "AI" "20a6" (.ok "text")).2 (by decide)
     ⟨'a', by decide, by decide⟩⟩

/-- C8: for each of the four text-generation stages, a model call that
succeeds but whose text is empty after stripping makes the stage fail with
the corresponding RuntimeError rather than returning the empty string. -/
theorem empty_model_output_fails_stage (resp : String) (h : pyStrip resp = "") :
    (∀ idx : Nat, select_category_and_title idx (.ok resp) =
      .error (.runtimeError "Title generation failed: Empty title response")) ∧
    (∀ topic year : String, ¬(topic = "" ∨ pyStrip topic = "") →
      pyIsDigit year = true →
      research_topic topic year (.ok resp) =
        (.error (.runtimeError "Research failed: Empty OpenAI response"), true)) ∧
    (∀ topic title research : String,
      generate_image_prompt topic title research (.ok resp) =
        .error (.runtimeError "Image prompt generation failed: Empty image prompt response")) ∧
    (∀ a b c d e f : String, write_blog_post a b c d e f (.ok resp) =
      .error (.runtimeError "Blog post failed: Empty OpenAI response")) := by
  refine ⟨?_, ?_, ?_, ?_⟩
  · intro idx
    simp [select_category_and_title, h]
  · intro topic year hv hd
    simp [research_topic, hv, hd, h]
  · intro topic title research
    simp [generate_image_prompt, h]
  · intro a b c d e f
    simp [write_blog_post, h]

/-- C8 witness: a blank model response fails each of the four stages at a
concrete input. -/
theorem empty_model_output_fails_stage_witness :
    select_category_and_title 0 (.ok "  ") =
      .error (.runtimeError "Title generation failed: Empty title response") ∧
    research_topic "AI" "2026" (.ok "  ") =
      (.error (.runtimeError "Research failed: Empty OpenAI response"), true) ∧
    generate_image_prompt "AI" "t" "r" (.ok "  ") =
      .error (.runtimeError "Image prompt generation failed: Empty image prompt response") ∧
    write_blog_post "a" "b" "c" "d" "e" "f" (.ok "  ") =
      .error (.runtimeError "Blog post failed: Empty OpenAI response") :=
  ⟨(empty_model_output_fails_stage "  " (by decide)).1 0,
   (empty_model_output_fails_stage "  " (by decide)).2.1 "AI" "2026" (by decide) (by decide),
   (empty_model_output_fails_stage "  " (by decide)).2.2.1 "AI" "t" "r",
   (empty_model_output_fails_stage "  " (by decide)).2.2.2 "a" "b" "c" "d" "e" "f"⟩

/-- C4: with a parsed frontmatter whose slug is the string my-post, the
post file is committed at exactly outstatic/content/blogs/my-post.md: the
first git call of the publisher is that create, and it succeeds by the
createPostResult hypothesis. -/
theorem publisher_commits_slug_path
    (rawContent : String) (yp : String → Option Metadata)
    (f : Except String FetchedFile) (jp : String → Option (List Entry))
    (mc : Except String Unit) (md : Metadata)
    (hparse : parse_frontmatter (pyStrip rawContent) yp = .ok md)
    (hslug : md.lookup "slug" = some (YVal.s "my-post")) :
    ((git_push_callback true true rawContent yp (.ok ()) f jp mc).2).head? =
      some (GitAction.createFile "outstatic/content/blogs/my-post.md"
        "Add my-post.md" (pyStrip rawContent)) := by
  have hs : ygetStr md "slug" "default-slug" = "my-post" := by
    simp [ygetStr, hslug]
  simp only [git_push_callback, Bool.true_eq_false, if_neg, ite_false, hparse]
  cases mc <;> simp [pushRest, hs]

/-- C4 witness: a concrete report whose frontmatter block carries slug
my-post is committed at outstatic/content/blogs/my-post.md. -/
theorem publisher_commits_slug_path_witness :
    ((git_push_callback true true "---\nslug: my-post\n---\nbody"
        (fun _ => some [("slug", YVal.s "my-post")]) (.ok ())
        (.error "404") (fun _ => none) (.ok ())).2).head? =
      some (GitAction.createFile "outstatic/content/blogs/my-post.md"
        "Add my-post.md" "---\nslug: my-post\n---\nbody") :=
  publisher_commits_slug_path "---\nslug: my-post\n---\nbody"
    (fun _ => some [("slug", YVal.s "my-post")]) (.error "404") (fun _ => none)
    (.ok ()) [("slug", YVal.s "my-post")] (by rfl) (by decide)

/-- C5: content that does not start with the frontmatter delimiter parses
to the empty mapping, and the derived metadata entry then uses category
Uncategorized, status draft, title Untitled and slug default-slug. -/
theorem publisher_no_frontmatter_defaults
    (rawContent : String) (yp : String → Option Metadata)
    (f : Except String FetchedFile) (jp : String → Option (List Entry))
    (mc : Except String Unit)
    (h : pyStartsWith (pyStrip rawContent) "---" = false) :
    parse_frontmatter (pyStrip rawContent) yp = .ok [] ∧
    (git_push_callback true true rawContent yp (.ok ()) f jp mc).2 =
      [GitAction.createFile "outstatic/content/blogs/default-slug.md"
        "Add default-slug.md" (pyStrip rawContent),
       GitAction.getContents "outstatic/content/metadata.json",
       metaAction f jp (new_entry [] "default-slug")] ∧
    (new_entry [] "default-slug").category = "Uncategorized" ∧
    (new_entry [] "default-slug").status = "draft" ∧
    (new_entry [] "default-slug").title = "Untitled" ∧
    (new_entry [] "default-slug").slug = "default-slug" := by
  have hp : parse_frontmatter (pyStrip rawContent) yp = .ok [] := by
    simp [parse_frontmatter, h]
  refine ⟨hp, ?_, by decide, by decide, by decide, by decide⟩
  simp only [git_push_callback, Bool.true_eq_false, if_neg, ite_false, hp]
  cases mc <;> simp [pushRest, ygetStr]

/-- C5 witness: a concrete report with no leading delimiter produces the
all-default entry. -/
theorem publisher_no_frontmatter_defaults_witness :
    parse_frontmatter (pyStrip "plain body") (fun _ => none) = .ok [] ∧
    (git_push_callback true true "plain body" (fun _ => none) (.ok ())
        (.error "404") (fun _ => none) (.ok ())).2 =
      [GitAction.createFile "outstatic/content/blogs/default-slug.md"
        "Add default-slug.md" (pyStrip "plain body"),
       GitAction.getContents "outstatic/content/metadata.json",
       metaAction (.error "404") (fun _ => none) (new_entry [] "default-slug")] ∧
    (new_entry [] "default-slug").category = "Uncategorized" ∧
    (new_entry [] "default-slug").status = "draft" ∧
    (new_entry [] "default-slug").title = "Untitled" ∧
    (new_entry [] "default-slug").slug = "default-slug" :=
  publisher_no_frontmatter_defaults "plain body" (fun _ => none) (.error "404")
    (fun _ => none) (.ok ()) (by decide)

/-- C6: when the fetched index decodes to the entry list xs, the committed
index is exactly xs with the entry derived from the new frontmatter
appended at the end; the existing entries are passed through unchanged. -/
theorem metadata_index_append_only
    (rawContent : String) (yp : String → Option Metadata)
    (f : FetchedFile) (jp : String → Option (List Entry))
    (md : Metadata) (xs : List Entry)
    (hparse : parse_frontmatter (pyStrip rawContent) yp = .ok md)
    (hjson : jp f.content = some xs) :
    git_push_callback true true rawContent yp (.ok ()) (.ok f) jp (.ok ()) =
      (.ok "Successfully pushed blog post",
       [GitAction.createFile
          ("outstatic/content/blogs/" ++ (ygetStr md "slug" "default-slug" ++ ".md"))
          ("Add " ++ (ygetStr md "slug" "default-slug" ++ ".md")) (pyStrip rawContent),
        GitAction.getContents "outstatic/content/metadata.json",
        GitAction.updateFile "outstatic/content/metadata.json" "Update metadata"
          (xs ++ [new_entry md (ygetStr md "slug" "default-slug")]) f.sha]) := by
  simp only [git_push_callback, Bool.true_eq_false, if_neg, ite_false, hparse]
  simp [pushRest, metaAction, fetchedSha, baseIndexOf, hjson]

/-- C6 witness: appending to a fetched one-entry index yields the same
entry followed by the derived one. -/
theorem metadata_index_append_only_witness :
    git_push_callback true true "post text" (fun _ => some [("slug", YVal.s "p2")])
        (.ok ()) (.ok ⟨"old json", "sha1"⟩)
        (fun _ => some [new_entry [("slug", YVal.s "p1")] "p1"]) (.ok ()) =
      (.ok "Successfully pushed blog post",
       [GitAction.createFile "outstatic/content/blogs/default-slug.md"
          "Add default-slug.md" (pyStrip "post text"),
        GitAction.getContents "outstatic/content/metadata.json",
        GitAction.updateFile "outstatic/content/metadata.json" "Update metadata"
          ([new_entry [("slug", YVal.s "p1")] "p1"] ++ [new_entry [] "default-slug"])
          "sha1"]) :=
  metadata_index_append_only "post text" (fun _ => some [("slug", YVal.s "p2")])
    ⟨"old json", "sha1"⟩ (fun _ => some [new_entry [("slug", YVal.s "p1")] "p1"])
    [] [new_entry [("slug", YVal.s "p1")] "p1"] (by rfl) (by rfl)

/-- URL-safety of a path segment: nonempty and built only from
alphanumerics, hyphen and underscore (the unreserved characters commonly
allowed in a slug). -/
def isUrlSafe (s : String) : Bool :=
  !s.data.isEmpty && s.data.all (fun c => c.isAlphanum || c == '-' || c == '_')

/-- C7 counterexample: a frontmatter slug containing a space is used
verbatim to derive the committed filename and the metadata entry, so the
slug used by the publisher is not URL-safe: no validation or substitution
happens on a present slug key. -/
theorem publisher_slug_not_url_safe_cex :
    ((git_push_callback true true "---\nslug: my post\n---\nbody"
        (fun _ => some [("slug", YVal.s "my post")]) (.ok ())
        (.error "404") (fun _ => none) (.ok ())).2).head? =
      some (GitAction.createFile "outstatic/content/blogs/my post.md"
        "Add my post.md" "---\nslug: my post\n---\nbody") ∧
    (new_entry [("slug", YVal.s "my post")] "my post").slug = "my post" ∧
    isUrlSafe "my post" = false := by
  exact ⟨by rfl, by decide, by decide⟩

/-- C7 amended: the publisher substitutes the default placeholder
default-slug (itself URL-safe) when the frontmatter mapping has no slug
key, but when a slug key is present its string value is used verbatim,
with no URL-safety validation. -/
theorem publisher_slug_default_or_verbatim
    (rawContent : String) (yp : String → Option Metadata)
    (f : Except String FetchedFile) (jp : String → Option (List Entry))
    (mc : Except String Unit) (md : Metadata)
    (hparse : parse_frontmatter (pyStrip rawContent) yp = .ok md) :
    (md.lookup "slug" = none →
      ((git_push_callback true true rawContent yp (.ok ()) f jp mc).2).head? =
        some (GitAction.createFile "outstatic/content/blogs/default-slug.md"
          "Add default-slug.md" (pyStrip rawContent)) ∧
      isUrlSafe "default-slug" = true) ∧
    (∀ s : String, md.lookup "slug" = some (YVal.s s) →
      ((git_push_callback true true rawContent yp (.ok ()) f jp mc).2).head? =
        some (GitAction.createFile ("outstatic/content/blogs/" ++ (s ++ ".md"))
          ("Add " ++ (s ++ ".md")) (pyStrip rawContent))) := by
  constructor
  · intro hnone
    have hs : ygetStr md "slug" "default-slug" = "default-slug" := by
      simp [ygetStr, hnone]
    refine ⟨?_, by decide⟩
    simp only [git_push_callback, Bool.true_eq_false, if_neg, ite_false, hparse]
    cases mc <;> simp [pushRest, hs]
  · intro s hsome
    have hs : ygetStr md "slug" "default-slug" = s := by
      simp [ygetStr, hsome]
    simp only [git_push_callback, Bool.true_eq_false, if_neg, ite_false, hparse]
    cases mc <;> simp [pushRest, hs]

/-- C7 amended witness: with no slug key the URL-safe default is used; with
a present slug key its value is used verbatim. -/
theorem publisher_slug_default_or_verbatim_witness :
    (((git_push_callback true true "body" (fun _ => none) (.ok ())
        (.error "404") (fun _ => none) (.ok ())).2).head? =
      some (GitAction.createFile "outstatic/content/blogs/default-slug.md"
        "Add default-slug.md" (pyStrip "body")) ∧
      isUrlSafe "default-slug" = true) ∧
    ((git_push_callback true true "---\nslug: a b\n---\nx"
        (fun _ => some [("slug", YVal.s "a b")]) (.ok ())
        (.error "404") (fun _ => none) (.ok ())).2).head? =
      some (GitAction.createFile ("outstatic/content/blogs/" ++ ("a b" ++ ".md"))
        ("Add " ++ ("a b" ++ ".md")) (pyStrip "---\nslug: a b\n---\nx")) :=
  ⟨(publisher_slug_default_or_verbatim "body" (fun _ => none) (.error "404")
      (fun _ => none) (.ok ()) [] (by rfl)).1 (by decide),
   (publisher_slug_default_or_verbatim "---\nslug: a b\n---\nx"
      (fun _ => some [("slug", YVal.s "a b")]) (.error "404")
      (fun _ => none) (.ok ()) [("slug", YVal.s "a b")] (by rfl)).2 "a b" (by decide)⟩

/-- C9: content that starts with the frontmatter delimiter but has no
second occurrence of it at or after index 3 makes the publisher fail with
the unwrapped ValueError of str.index, before any git call: the error is
not the RuntimeError stage wrap, and the action list is empty. -/
theorem publisher_unterminated_frontmatter_unwrapped
    (rawContent : String) (yp : String → Option Metadata)
    (cp : Except String Unit) (f : Except String FetchedFile)
    (jp : String → Option (List Entry)) (mc : Except String Unit)
    (h1 : pyStartsWith (pyStrip rawContent) "---" = true)
    (h2 : strIndexFrom (pyStrip rawContent) "---" 3 = none) :
    git_push_callback true true rawContent yp cp f jp mc =
      (.error (.valueError "substring not found"), []) := by
  simp [git_push_callback, parse_frontmatter, h1, h2]

/-- C9 witness: a report consisting of a single delimiter line and text
with no closing delimiter escapes as the raw ValueError. -/
theorem publisher_unterminated_frontmatter_unwrapped_witness :
    git_push_callback true true "--- no end" (fun _ => none) (.ok ())
        (.error "404") (fun _ => none) (.ok ()) =
      (.error (.valueError "substring not found"), []) :=
  publisher_unterminated_frontmatter_unwrapped "--- no end" (fun _ => none)
    (.ok ()) (.error "404") (fun _ => none) (.ok ()) (by decide) (by decide)

/-- C10: when the metadata.json fetch succeeds but decoding its content
fails, the publisher still takes the update-in-place branch with the
previously read sha, while the in-memory index is the empty default, so
the committed index holds only the new entry and every previously stored
entry is discarded. -/
theorem publisher_json_decode_failure_discards_index
    (rawContent : String) (yp : String → Option Metadata)
    (f : FetchedFile) (jp : String → Option (List Entry)) (md : Metadata)
    (hparse : parse_frontmatter (pyStrip rawContent) yp = .ok md)
    (hjson : jp f.content = none) :
    git_push_callback true true rawContent yp (.ok ()) (.ok f) jp (.ok ()) =
      (.ok "Successfully pushed blog post",
       [GitAction.createFile
          ("outstatic/content/blogs/" ++ (ygetStr md "slug" "default-slug" ++ ".md"))
          ("Add " ++ (ygetStr md "slug" "default-slug" ++ ".md")) (pyStrip rawContent),
        GitAction.getContents "outstatic/content/metadata.json",
        GitAction.updateFile "outstatic/content/metadata.json" "Update metadata"
          [new_entry md (ygetStr md "slug" "default-slug")] f.sha]) := by
  simp only [git_push_callback, Bool.true_eq_false, if_neg, ite_false, hparse]
  simp [pushRest, metaAction, fetchedSha, baseIndexOf, hjson]

/-- C10 witness: a fetched index whose content no longer decodes is
replaced by the one-entry index, under its previously read sha. -/
theorem publisher_json_decode_failure_discards_index_witness :
    git_push_callback true true "post body" (fun _ => none) (.ok ())
        (.ok ⟨"not json", "sha9"⟩) (fun _ => none) (.ok ()) =
      (.ok "Successfully pushed blog post",
       [GitAction.createFile
          ("outstatic/content/blogs/" ++ ("default-slug" ++ ".md"))
          ("Add " ++ ("default-slug" ++ ".md")) (pyStrip "post body"),
        GitAction.getContents "outstatic/content/metadata.json",
        GitAction.updateFile "outstatic/content/metadata.json" "Update metadata"
          [new_entry [] "default-slug"] "sha9"]) :=
  publisher_json_decode_failure_discards_index "post body" (fun _ => none)
    ⟨"not json", "sha9"⟩ (fun _ => none) [] (by rfl) (by rfl)

/-- A complete set of successful oracles for one pipeline run: every model
call returns non-blank text, the image chain succeeds, the post commit and
the index commit succeed, and the index fetch reports not-found. -/
def oraclesOK : Oracles :=
  ⟨0, .ok "AI Trends", .ok "research notes", .ok "an image prompt", .ok "http://img",
   fun _ => .ok "bytes", fun _ _ => .ok "https://blob/img.png", .ok "hello post",
   fun _ => none, .ok (), .error "404", fun _ => none, .ok (),
   true, 2026, "2026-01-01T00:00:00", 100, 5⟩

/-- C1 counterexample: on a run whose external calls all succeed, the
pipeline succeeds with the success object carrying result and
execution_time, yet the HTTP response body of GET /run-agent is the static
message object, not that success object: the route discards the value
run_agent returns. -/
theorem trigger_event_discards_pipeline_result_cex :
    run_agent oraclesOK = .ok ⟨"Successfully pushed blog post", 5⟩ ∧
    trigger_event oraclesOK = ⟨200, .message "Agent is running in the background"⟩ ∧
    (trigger_event oraclesOK).body ≠
      RespBody.runResult "Successfully pushed blog post" 5 :=
  ⟨by rfl, by rfl, by decide⟩

/-- C1 amended: for every invocation of GET /run-agent in which all four
external services succeed (model calls returning non-blank text, post and
index commits succeeding), the HTTP response has status 200 but its body
is the static object with message Agent is running in the background; the
success object with result and execution_time is returned by run_agent and
discarded by the route. -/
theorem run_agent_success_static_message
    (o : Oracles) (t r p w : String) (md : Metadata)
    (ht : o.titleResp = .ok t) (ht1 : pyStrip t ≠ "")
    (hr : o.researchResp = .ok r) (hr1 : pyStrip r ≠ "")
    (hp : o.imagePromptResp = .ok p) (hp1 : pyStrip p ≠ "")
    (hw : o.postResp = .ok w) (hw1 : pyStrip w ≠ "")
    (hparse : parse_frontmatter (pyStrip w) o.yamlParse = .ok md)
    (hg : o.hasGitToken = true)
    (hc : o.createPost = .ok ())
    (hm : o.metaCommit = .ok ()) :
    run_agent o = .ok ⟨"Successfully pushed blog post", o.elapsed⟩ ∧
    trigger_event o = ⟨200, .message "Agent is running in the background"⟩ := by
  have s1 : select_category_and_title o.randIdx o.titleResp =
      .ok (categories.getD (o.randIdx % categories.length) "", pyStrip t) := by
    simp [select_category_and_title, ht, ht1]
  have s2 : (research_topic (pyStrip (pyStrip t)) (pyStrNat o.year) o.researchResp).1 =
      .ok (pyStrip r) := by
    simp [research_topic, pyStrip_idem, ht1, pyIsDigit_pyStrNat, hr, hr1]
  have s3 : ∀ a b c : String, generate_image_prompt a b c o.imagePromptResp =
      .ok (pyStrip p) := by
    intro a b c
    simp [generate_image_prompt, hp, hp1]
  have s4 : ∀ a b c d e f : String, write_blog_post a b c d e f o.postResp =
      .ok (pyStrip w) := by
    intro a b c d e f
    simp [write_blog_post, hw, hw1]
  have s5 : (git_push_callback o.hasGitToken true (pyStrip w) o.yamlParse
      o.createPost o.fetchMeta o.jsonParse o.metaCommit).1 =
      .ok "Successfully pushed blog post" := by
    rw [hg, hc, hm]
    simp only [git_push_callback, Bool.true_eq_false, if_neg, ite_false]
    rw [pyStrip_idem, hparse]
    cases hfm : o.fetchMeta <;> simp [pushRest]
  have main : run_agent o = .ok ⟨"Successfully pushed blog post", o.elapsed⟩ := by
    simp [run_agent, s1, s2, s3, s4, s5]
  exact ⟨main, by simp [trigger_event, main]⟩

/-- C1 amended witness: the concrete all-success oracles give the 200
static-message response while the pipeline result is the success object. -/
theorem run_agent_success_static_message_witness :
    run_agent oraclesOK = .ok ⟨"Successfully pushed blog post", oraclesOK.elapsed⟩ ∧
    trigger_event oraclesOK = ⟨200, .message "Agent is running in the background"⟩ :=
  run_agent_success_static_message oraclesOK "AI Trends" "research notes"
    "an image prompt" "hello post" [] (by rfl) (by decide) (by rfl) (by decide)
    (by rfl) (by decide) (by rfl) (by decide) (by rfl) (by rfl) (by rfl) (by rfl)

end BlogAgent
